import Mathlib

/-!
Verification of the core of KomoCap (komocap.py): the recording pipeline
(RecorderThread: quality table, ffmpeg command assembly, stop/termination
logic, completion detection), the audio source resolver
(detect_audio_source), and the region selectors (the slop-based native
path and the pure-PyQt _AreaOverlay fallback).

Each definition is a shallow embedding of the corresponding Python
function; Qt value types (QPoint, QRect) are embedded with their real Qt5
semantics, in particular the corner-inclusive QRect(topLeft, bottomRight)
constructor (width = x2 - x1 + 1) and the Qt5 normalized() rule that only
swaps corners when the width (resp. height) is negative.
-/

/-! ## Python string helpers used by the embedded functions -/

/-- Helper for `pySplit`: accumulates the current token (in reverse). -/
def pySplitAux : List Char → List Char → List String
  | [], acc => if acc.isEmpty then [] else [String.mk acc.reverse]
  | c :: cs, acc =>
    if c.isWhitespace then
      if acc.isEmpty then pySplitAux cs []
      else String.mk acc.reverse :: pySplitAux cs []
    else pySplitAux cs (c :: acc)

/-- Models Python `s.split()` with no arguments (also `s.strip().split()`,
which is the same list): split on runs of whitespace, dropping empty
pieces. -/
def pySplit (s : String) : List String := pySplitAux s.data []

/-- ASCII lower-casing of one character, as Python `str.lower` does on the
ASCII output of the probed tools. -/
def charLower (c : Char) : Char :=
  if 'A' ≤ c ∧ c ≤ 'Z' then Char.ofNat (c.toNat + 32) else c

/-- Models Python `s.lower()` on ASCII text. -/
def strLower (s : String) : String := String.mk (s.data.map charLower)

/-- Does `s` start with `pat`? -/
def beginsWith : List Char → List Char → Bool
  | [], _ => true
  | _ :: _, [] => false
  | p :: ps, c :: cs => p == c && beginsWith ps cs

/-- Does `pat` occur as a contiguous substring of `s`?  Models the Python
`in` operator on strings. -/
def hasSub (pat : List Char) : List Char → Bool
  | [] => beginsWith pat []
  | c :: cs => beginsWith pat (c :: cs) || hasSub pat cs

/-- Models the Python test `"monitor" in line.lower()` from
`detect_audio_source`. -/
def hasMonitor (line : String) : Bool :=
  hasSub "monitor".data (strLower line).data

/-- Digit-run accumulator for `pyInt`. -/
def digitsAux : List Char → Nat → Option Nat
  | [], acc => some acc
  | c :: cs, acc =>
    if c.isDigit then digitsAux cs (acc * 10 + (c.toNat - 48)) else none

/-- Parses a nonempty run of decimal digits. -/
def digitsToNat : List Char → Option Nat
  | [] => none
  | cs => digitsAux cs 0

/-- Models Python `int(token)` on the plain decimal tokens produced by the
selection tools: an optional minus sign followed by digits (the full
Python `int` also strips whitespace and accepts `+` and underscores, which
never occur in slop output). A failure corresponds to `int` raising
`ValueError`. -/
def pyInt (s : String) : Option Int :=
  match s.data with
  | '-' :: rest => (digitsToNat rest).map (fun n => -(n : Int))
  | cs => (digitsToNat cs).map Int.ofNat

/-- First `n` characters of `s`: models `bytes.read(n)` / slicing `[:n]`
on the captured (ASCII-decoded) stream. -/
def strTake (n : Nat) (s : String) : String := String.mk (s.data.take n)

/-- Last `n` characters of `s`: models Python slicing `s[-n:]`. -/
def strTakeRight (n : Nat) (s : String) : String :=
  String.mk (s.data.drop (s.data.length - n))

/-- Index of the last occurrence of `c` in the list, if any. -/
def lastIdx (c : Char) : List Char → Option Nat
  | [] => none
  | a :: as =>
    match lastIdx c as with
    | some i => some (i + 1)
    | none => if a = c then some 0 else none

/-- Models the root part of Python `os.path.splitext(p)[0]` (POSIX rules):
the extension starts at the last dot, provided that dot lies after the
last slash and the basename does not consist solely of leading dots up to
it. -/
def splitextRoot (s : String) : String :=
  let cs := s.data
  let sepI : Int := match lastIdx '/' cs with | some i => (i : Int) | none => -1
  match lastIdx '.' cs with
  | some di =>
    if sepI < (di : Int) ∧
        ((cs.drop (sepI + 1).toNat).take (di - (sepI + 1).toNat)).any (· ≠ '.') then
      String.mk (cs.take di)
    else s
  | none => s

/-! ## Qt value types

QPoint and QRect with genuine Qt5 semantics.  A QRect stores its two
corners; `QRect(topLeft, bottomRight)` includes both corner pixels, so
`width = x2 - x1 + 1`.  The default constructor `QRect()` is the null
rectangle (0, 0, -1, -1). -/

structure QPoint where
  x : Int
  y : Int
deriving DecidableEq

structure QRect where
  x1 : Int
  y1 : Int
  x2 : Int
  y2 : Int
deriving DecidableEq

/-- The default-constructed `QRect()`. -/
def QRect.null : QRect := ⟨0, 0, -1, -1⟩

def QRect.width (r : QRect) : Int := r.x2 - r.x1 + 1

def QRect.height (r : QRect) : Int := r.y2 - r.y1 + 1

def QRect.x (r : QRect) : Int := r.x1

def QRect.y (r : QRect) : Int := r.y1

/-- Qt `QRect.isNull`: both width and height are 0. -/
def QRect.isNull (r : QRect) : Bool :=
  r.x2 == r.x1 - 1 && r.y2 == r.y1 - 1

/-- The `QRect(topLeft, bottomRight)` constructor used in
`_AreaOverlay.mouseMoveEvent` and `mouseReleaseEvent`. -/
def QRect.ofPoints (tl br : QPoint) : QRect := ⟨tl.x, tl.y, br.x, br.y⟩

/-- The `QRect(x, y, w, h)` constructor used for slop results. -/
def QRect.ofXYWH (x y w h : Int) : QRect := ⟨x, y, x + w - 1, y + h - 1⟩

/-- Qt5 `QRect.normalized`: swaps the x corners only when `x2 < x1 - 1`
(negative width), and likewise for y. -/
def QRect.normalized (r : QRect) : QRect :=
  let px := if r.x2 < r.x1 - 1 then (r.x2, r.x1) else (r.x1, r.x2)
  let py := if r.y2 < r.y1 - 1 then (r.y2, r.y1) else (r.y1, r.y2)
  ⟨px.1, py.1, px.2, py.2⟩

/-! ## The pure-PyQt fallback overlay (_AreaOverlay)

State and event handlers of the fallback region picker.  Each handler
returns the updated state and the list of signals it emits
(`area_selected` with a rectangle, or `cancelled`). -/

inductive MouseButton where
  | left
  | right
  | middle
deriving DecidableEq

inductive Key where
  | escape
  | keyReturn
  | keyEnter
  | otherKey
deriving DecidableEq

inductive OverlaySignal where
  | areaSelected (r : QRect)
  | cancelled
deriving DecidableEq

/-- The mutable fields of `_AreaOverlay` that the event handlers touch:
`_origin`, `_sel`, `_drag`, `_done`. -/
structure OverlayState where
  origin : QPoint
  sel : QRect
  drag : Bool
  done : Bool
deriving DecidableEq

namespace AreaOverlay

/-- Models `_AreaOverlay.mousePressEvent`. -/
def mousePressEvent (s : OverlayState) (button : MouseButton) (pos : QPoint) :
    OverlayState :=
  if button = MouseButton.left then
    { s with origin := pos, sel := QRect.null, drag := true }
  else s

/-- Models `_AreaOverlay.mouseMoveEvent`. -/
def mouseMoveEvent (s : OverlayState) (pos : QPoint) : OverlayState :=
  if s.drag then { s with sel := (QRect.ofPoints s.origin pos).normalized }
  else s

/-- Models `_AreaOverlay._finish(ok)`: emits `area_selected` with the
normalized selection when `ok`, else `cancelled`; a second call is
suppressed by the `_done` flag. -/
def finish (s : OverlayState) (ok : Bool) : OverlayState × List OverlaySignal :=
  if s.done then (s, [])
  else
    ({ s with done := true },
     if ok then [OverlaySignal.areaSelected s.sel.normalized]
     else [OverlaySignal.cancelled])

/-- Models `_AreaOverlay.mouseReleaseEvent`: on a left-button release
during a drag, the selection becomes the normalized rectangle between the
press origin and the release position, and the session resolves via
`_finish` with `ok` exactly when both its width and height exceed 10. -/
def mouseReleaseEvent (s : OverlayState) (button : MouseButton) (pos : QPoint) :
    OverlayState × List OverlaySignal :=
  if button = MouseButton.left ∧ s.drag then
    let s1 := { s with drag := false,
                       sel := (QRect.ofPoints s.origin pos).normalized }
    if 10 < s1.sel.width ∧ 10 < s1.sel.height then finish s1 true
    else finish s1 false
  else (s, [])

/-- Models `_AreaOverlay.keyPressEvent`: Escape cancels; Return or Enter
confirms the current selection when it is non-null. -/
def keyPressEvent (s : OverlayState) (k : Key) :
    OverlayState × List OverlaySignal :=
  if k = Key.escape then finish s false
  else if k = Key.keyReturn ∨ k = Key.keyEnter then
    if s.sel.isNull then (s, []) else finish s true
  else (s, [])

end AreaOverlay

/-- The state set up by `_AreaOverlay.__init__`: origin `QPoint()`, null
selection, no drag in progress, not finished. -/
def overlayInit : OverlayState :=
  { origin := ⟨0, 0⟩, sel := QRect.null, drag := false, done := false }

/-- One complete drag on a fresh overlay: left press, one move, left
release; returns the emitted signals. -/
def dragSession (pressP moveP releaseP : QPoint) : List OverlaySignal :=
  let s1 := AreaOverlay.mousePressEvent overlayInit MouseButton.left pressP
  let s2 := AreaOverlay.mouseMoveEvent s1 moveP
  (AreaOverlay.mouseReleaseEvent s2 MouseButton.left releaseP).2

/-! ## The native region picker (slop branch of _select_area_native) -/

/-- The unified result a selection session delivers to the caller:
`area_selected` with a rectangle, or `cancelled`. -/
inductive SelectionResult where
  | resolved (r : QRect)
  | cancelled
deriving DecidableEq

/-- Outcome of the slop branch of `_select_area_native`: a rectangle was
returned, `None` was returned (cancel), or an exception was swallowed and
control fell through to the scrot branch. -/
inductive SlopOutcome where
  | picked (r : QRect)
  | noRect
  | raised
deriving DecidableEq

/-- Models the slop branch of `_select_area_native`, as a function of the
exit code and stdout of the slop invocation.  A non-zero exit returns
`None`; a zero exit whose stdout splits into exactly 4 tokens that all
parse as integers yields `QRect(x, y, w, h)` when `w > 4 and h > 4`, and
`None` otherwise; a token that makes `int()` raise is caught by the
enclosing `except` and control falls through to the scrot branch. -/
def select_area_slop (returncode : Int) (stdout : String) : SlopOutcome :=
  if returncode = 0 then
    match pySplit stdout with
    | [a, b, c, d] =>
      match pyInt a, pyInt b, pyInt c, pyInt d with
      | some x, some y, some w, some h =>
        if 4 < w ∧ 4 < h then SlopOutcome.picked (QRect.ofXYWH x y w h)
        else SlopOutcome.noRect
      | _, _, _, _ => SlopOutcome.raised
    | _ => SlopOutcome.noRect
  else SlopOutcome.noRect

/-- Models `AreaSelector._on_native_done(rect)`: a null rectangle, or one
with width or height below 4, emits `cancelled`; otherwise
`area_selected`. -/
def on_native_done (rect : QRect) : SelectionResult :=
  if rect.isNull ∨ rect.width < 4 ∨ rect.height < 4 then
    SelectionResult.cancelled
  else SelectionResult.resolved rect

/-- A whole native selection session through the slop tool: `_SlopThread`
emits the returned rectangle, or `QRect()` when `_select_area_native`
returned `None`, and `_on_native_done` resolves it.  `none` is the case
where the slop branch raised and `_select_area_native` went on to the
scrot branch instead. -/
def slop_session (returncode : Int) (stdout : String) : Option SelectionResult :=
  match select_area_slop returncode stdout with
  | SlopOutcome.picked r => some (on_native_done r)
  | SlopOutcome.noRect => some (on_native_done QRect.null)
  | SlopOutcome.raised => none

/-! ## The audio source resolver (detect_audio_source, pactl branch) -/

/-- Models the `for line in lines` loop in `detect_audio_source`: the
first line not containing "monitor" (case-insensitively) whose
whitespace-split has at least two fields yields that second field. -/
def pick_source : List String → Option String
  | [] => none
  | line :: rest =>
    if hasMonitor line then pick_source rest
    else
      match pySplit line with
      | _ :: src :: _ => some src
      | _ => pick_source rest

/-- Models the body of step 1 of `detect_audio_source` once `pactl list
short sources` has answered with exit code 0 and the given (nonempty
stdout) lines: prefer the first non-monitor source, fall back to the
first listed source, and finally to ("pulse", "default").  Step 2 (the
direct PulseAudio probe) runs the same code on the same shape of
input. -/
def pactl_branch (lines : List String) : String × String :=
  match pick_source lines with
  | some src => ("pulse", src)
  | none =>
    match lines with
    | [] => ("pulse", "default")
    | first :: _ =>
      match pySplit first with
      | _ :: src :: _ => ("pulse", src)
      | _ => ("pulse", "default")

/-! ## The recording pipeline (RecorderThread)

The command-building prefix of `RecorderThread.run` is pure: it reads the
config and host environment and assembles the ffmpeg argument vector.  It
is embedded as `buildCmd`; the sequence of `cmd += ...` blocks in the
source appears here as one helper definition per block, concatenated in
the same order. -/

/-- The fields of the `cfg` dict consumed by `RecorderThread.run` (with
the same defaults applied by `cfg.get`). -/
structure RecCfg where
  area : Option QRect
  fps : Int
  quality : Int
  audio : Bool
  webcam : Bool
  webcamSize : String
  webcamPos : String
  output : String

/-- The host facts `RecorderThread.run` reads: the screen geometry, the
DISPLAY variable, the resolved audio source, and whether /dev/video0
exists. -/
structure HostEnv where
  screenW : Int
  screenH : Int
  display : String
  audioDriver : String
  audioSrc : String
  video0Exists : Bool

/-- The `RecorderThread.QUALITY` table: quality index to (crf, preset). -/
def QUALITY (qi : Int) : Option (Int × String) :=
  if qi = 0 then some (45, "ultrafast")
  else if qi = 1 then some (28, "fast")
  else if qi = 2 then some (18, "medium")
  else if qi = 3 then some (12, "slow")
  else if qi = 4 then some (0, "veryslow")
  else none

/-- The crf actually used: `QUALITY.get(qi, (18, "medium"))[0]`. -/
def crfOf (cfg : RecCfg) : Int := ((QUALITY cfg.quality).getD (18, "medium")).1

/-- The preset actually used: `QUALITY.get(qi, (18, "medium"))[1]`. -/
def presetOf (cfg : RecCfg) : String :=
  ((QUALITY cfg.quality).getD (18, "medium")).2

/-- Models `n & ~1` on Python ints (clear the lowest bit, i.e. round down
to even; agrees with twos-complement `&` on negatives). -/
def evenDown (n : Int) : Int := n - n % 2

/-- Effective capture x offset: the area x when a non-null area is given,
else 0. -/
def effectiveX (cfg : RecCfg) : Int :=
  match cfg.area with
  | some a => if !a.isNull then a.x else 0
  | none => 0

/-- Effective capture y offset. -/
def effectiveY (cfg : RecCfg) : Int :=
  match cfg.area with
  | some a => if !a.isNull then a.y else 0
  | none => 0

/-- Effective capture width: `area.width() & ~1` for a non-null area,
else `screen.width() & ~1`. -/
def effectiveW (env : HostEnv) (cfg : RecCfg) : Int :=
  match cfg.area with
  | some a => if !a.isNull then evenDown a.width else evenDown env.screenW
  | none => evenDown env.screenW

/-- Effective capture height. -/
def effectiveH (env : HostEnv) (cfg : RecCfg) : Int :=
  match cfg.area with
  | some a => if !a.isNull then evenDown a.height else evenDown env.screenH
  | none => evenDown env.screenH

/-- Output extension: `".mkv" if qi == 4 else ".mp4"`. -/
def extOf (cfg : RecCfg) : String := if cfg.quality = 4 then ".mkv" else ".mp4"

/-- The final output path: `os.path.splitext(out)[0] + ext`. -/
def finalPath (cfg : RecCfg) : String := splitextRoot cfg.output ++ extOf cfg

/-- The initial `cmd` list built in `run` (ffmpeg, x11grab input with
rate, size and display offset). -/
def headCmd (env : HostEnv) (cfg : RecCfg) : List String :=
  ["ffmpeg", "-y",
   "-f", "x11grab",
   "-r", toString cfg.fps,
   "-s", toString (effectiveW env cfg) ++ "x" ++ toString (effectiveH env cfg),
   "-i", env.display ++ "+" ++ toString (effectiveX cfg) ++ "," ++
         toString (effectiveY cfg)]

/-- `audio_idx` in `run`: 1 when audio is requested, else None. -/
def audio_idx (cfg : RecCfg) : Option Nat := if cfg.audio then some 1 else none

/-- The audio-input block appended when audio is requested, using the
driver resolved by `detect_audio_source`. -/
def audioArgs (env : HostEnv) (cfg : RecCfg) : List String :=
  if cfg.audio then
    if env.audioDriver = "pulse" then ["-f", "pulse", "-i", env.audioSrc]
    else ["-f", "alsa", "-i", env.audioSrc]
  else []

/-- `webcam_idx` in `run`: set only when webcam is requested and
/dev/video0 exists; it is 2 after an audio input, else 1. -/
def webcam_idx (env : HostEnv) (cfg : RecCfg) : Option Nat :=
  if cfg.webcam ∧ env.video0Exists then
    some (match audio_idx cfg with | some i => i + 1 | none => 1)
  else none

/-- The webcam-input block. -/
def webcamArgs (env : HostEnv) (cfg : RecCfg) : List String :=
  if cfg.webcam ∧ env.video0Exists then ["-f", "v4l2", "-i", "/dev/video0"]
  else []

/-- The webcam scale target from `sz_map` (default "240:180"). -/
def webcamScale (cfg : RecCfg) : String :=
  if cfg.webcamSize = "small" then "240:180"
  else if cfg.webcamSize = "medium" then "320:240"
  else if cfg.webcamSize = "large" then "480:360"
  else "240:180"

/-- The overlay position from `pos_map` (default bottom-right). -/
def webcamOverlayPos (cfg : RecCfg) : String :=
  if cfg.webcamPos = "bottom-right" then "W-w-12:H-h-12"
  else if cfg.webcamPos = "bottom-left" then "12:H-h-12"
  else if cfg.webcamPos = "top-right" then "W-w-12:12"
  else if cfg.webcamPos = "top-left" then "12:12"
  else "W-w-12:H-h-12"

/-- The filter block: with a webcam, the composed filter graph plus the
explicit maps; without one, the plain `-vf scale=w:h`. -/
def filterArgs (env : HostEnv) (cfg : RecCfg) : List String :=
  match webcam_idx env cfg with
  | some wi =>
    ["-filter_complex",
     "[" ++ toString wi ++ ":v]scale=" ++ webcamScale cfg ++
       ",format=yuv420p[cam];[0:v][cam]overlay=" ++ webcamOverlayPos cfg ++
       "[out]",
     "-map", "[out]"] ++
    (match audio_idx cfg with
     | some ai => ["-map", toString ai ++ ":a"]
     | none => [])
  | none =>
    ["-vf", "scale=" ++ toString (effectiveW env cfg) ++ ":" ++
            toString (effectiveH env cfg)]

/-- The fixed video codec block with the derived crf and preset. -/
def codecArgs (cfg : RecCfg) : List String :=
  ["-c:v", "libx264",
   "-crf", toString (crfOf cfg),
   "-preset", presetOf cfg,
   "-pix_fmt", "yuv420p",
   "-movflags", "+faststart"]

/-- The audio codec block, present exactly when an audio input is. -/
def audioCodecArgs (cfg : RecCfg) : List String :=
  match audio_idx cfg with
  | some _ => ["-c:a", "aac", "-b:a", "192k", "-ac", "2", "-ar", "44100"]
  | none => []

/-- The command-building prefix of `RecorderThread.run`: validates the
effective capture size and either reports the validation error (the
`sig_error` emission, after which `run` returns without spawning
anything) or produces the full ffmpeg argument vector and the final
output path. -/
def buildCmd (env : HostEnv) (cfg : RecCfg) :
    Except String (List String × String) :=
  if effectiveW env cfg < 2 ∨ effectiveH env cfg < 2 then
    Except.error "Selected area is too small."
  else
    Except.ok
      (headCmd env cfg ++ audioArgs env cfg ++ webcamArgs env cfg ++
         filterArgs env cfg ++ codecArgs cfg ++ audioCodecArgs cfg ++
         [finalPath cfg],
       finalPath cfg)

/-- Whether `run` reaches the `subprocess.Popen` call: only when the
validation passed. -/
def runSpawns (env : HostEnv) (cfg : RecCfg) : Bool :=
  match buildCmd env cfg with
  | Except.ok _ => true
  | Except.error _ => false

/-! ## The encoder process lifecycle (RecorderThread.run tail and stop)

State model of one recording session after a successful spawn.  The
signals `sig_status`/`sig_done`/`sig_error` are collected in emission
order; `stop` emits none of them, the tail of `run` after
`self._proc.wait()` returns emits exactly one. -/

inductive RecSignal where
  | sigStatus (s : String)
  | sigDone (path : String)
  | sigError (msg : String)
deriving DecidableEq

/-- Session state owned by a `RecorderThread`: the `_stop` event, whether
the child process is still running (`poll() is None`), whether
`terminate()` has been issued, how many quit commands were written to the
child, and the signals emitted so far. -/
structure RecState where
  stopFlag : Bool
  procAlive : Bool
  terminated : Bool
  quitWrites : Nat
  emitted : List RecSignal
deriving DecidableEq

/-- Is the signal one of the two terminal transitions (done / error)? -/
def isTerminal : RecSignal → Bool
  | RecSignal.sigDone _ => true
  | RecSignal.sigError _ => true
  | RecSignal.sigStatus _ => false

/-- Number of terminal transitions in an emission trace. -/
def countTerminal (l : List RecSignal) : Nat := (l.filter isTerminal).length

namespace RecorderThread

/-- Models `RecorderThread.stop`: set the `_stop` flag first; if the
child is still running, write `b"q\n"` and wait up to 5 seconds
(`exitsInGrace` says whether the child exits within that bound), and on
timeout call `terminate()`.  SIGTERM termination is modelled as the child
exiting (ffmpeg handles SIGTERM by quitting), so after a completed `stop`
the child is no longer running.  `stop` emits no signals. -/
def stop (exitsInGrace : Bool) (s : RecState) : RecState :=
  let s1 := { s with stopFlag := true }
  if s1.procAlive then
    let s2 := { s1 with quitWrites := s1.quitWrites + 1 }
    if exitsInGrace then { s2 with procAlive := false }
    else { s2 with procAlive := false, terminated := true }
  else s1

/-- Models the tail of `RecorderThread.run` after `self._proc.wait()`
returns: read up to 3000 stderr bytes, then emit `sig_done(final)` when
the `_stop` flag is set or the output file exists, else
`sig_error` with the exit code and the last 600 characters of the
captured stderr. -/
def runFinish (outExists : Bool) (exitCode : Int) (stderrCap : String)
    (final : String) (s : RecState) : RecState :=
  if s.stopFlag ∨ outExists then
    { s with procAlive := false,
             emitted := s.emitted ++ [RecSignal.sigDone final] }
  else
    { s with procAlive := false,
             emitted := s.emitted ++
               [RecSignal.sigError
                 ("Recording failed (exit " ++ toString exitCode ++ ").\n" ++
                  strTakeRight 600 (strTake 3000 stderrCap))] }

end RecorderThread

/-! ## Lifecycle lemmas shared by the stop/termination claims -/

/-- stop always leaves the cancellation flag set. -/
lemma stop_sets_flag (g : Bool) (s : RecState) :
    (RecorderThread.stop g s).stopFlag = true := by
  unfold RecorderThread.stop
  rcases s with ⟨sf, pa, te, qw, em⟩
  cases pa <;> cases g <;> simp

/-- After a completed stop the child is no longer running. -/
lemma stop_kills_proc (g : Bool) (s : RecState) :
    (RecorderThread.stop g s).procAlive = false := by
  unfold RecorderThread.stop
  rcases s with ⟨sf, pa, te, qw, em⟩
  cases pa <;> cases g <;> simp

/-- stop emits no signals. -/
lemma stop_keeps_emitted (g : Bool) (s : RecState) :
    (RecorderThread.stop g s).emitted = s.emitted := by
  unfold RecorderThread.stop
  rcases s with ⟨sf, pa, te, qw, em⟩
  cases pa <;> cases g <;> simp

/-- Terminal-transition counting distributes over trace append. -/
lemma countTerminal_append (l1 l2 : List RecSignal) :
    countTerminal (l1 ++ l2) = countTerminal l1 + countTerminal l2 := by
  simp [countTerminal, List.filter_append]

/-- Rounding down to even always yields an even number. -/
lemma evenDown_even (n : Int) : evenDown n % 2 = 0 := by
  unfold evenDown
  omega

/-- In the ok case, buildCmd produces exactly the concatenation of the
blocks plus the output path, and the stated output path. -/
lemma buildCmd_ok_shape (env : HostEnv) (cfg : RecCfg) (cmd : List String)
    (fp : String) (h : buildCmd env cfg = Except.ok (cmd, fp)) :
    cmd = headCmd env cfg ++ audioArgs env cfg ++ webcamArgs env cfg ++
        filterArgs env cfg ++ codecArgs cfg ++ audioCodecArgs cfg ++
        [finalPath cfg]
    ∧ fp = finalPath cfg := by
  rw [buildCmd] at h
  by_cases hcond : effectiveW env cfg < 2 ∨ effectiveH env cfg < 2
  · rw [if_pos hcond] at h
    exact absurd h (by simp)
  · rw [if_neg hcond] at h
    simp only [Except.ok.injEq, Prod.mk.injEq] at h
    exact ⟨h.1.symm, h.2.symm⟩

/-! ## Claims about stop and completion (C2, C3, C4) -/

/-- C2: stop is idempotent — a second stop leaves the state exactly as
the first left it (in particular, stop on a session whose child already
exited only re-sets the already-set flag); stop itself never emits a
signal; and two stops in a row followed by the single run-thread
completion produce exactly one terminal transition, never two. -/
theorem C2_stop_idempotent :
    (∀ (g1 g2 : Bool) (s : RecState),
        RecorderThread.stop g2 (RecorderThread.stop g1 s)
          = RecorderThread.stop g1 s)
    ∧ (∀ (g : Bool) (s : RecState),
        (RecorderThread.stop g s).emitted = s.emitted)
    ∧ ∀ (g1 g2 : Bool) (s : RecState) (oe : Bool) (ec : Int)
        (st fp : String),
        countTerminal
          (RecorderThread.runFinish oe ec st fp
            (RecorderThread.stop g2 (RecorderThread.stop g1 s))).emitted
          = countTerminal s.emitted + 1 := by
  refine ⟨?_, stop_keeps_emitted, ?_⟩
  · intro g1 g2 s
    rcases s with ⟨sf, pa, te, qw, em⟩
    unfold RecorderThread.stop
    cases pa <;> cases g1 <;> cases g2 <;> simp
  · intro g1 g2 s oe ec st fp
    have hf := stop_sets_flag g2 (RecorderThread.stop g1 s)
    have he := stop_keeps_emitted g2 (RecorderThread.stop g1 s)
    rw [stop_keeps_emitted g1 s] at he
    simp [RecorderThread.runFinish, hf, he, countTerminal_append,
      countTerminal, isTerminal]

/-- C3: once the spawned child exits, the manager declares success —
emitting sig_done with the final output path — exactly when the
cancellation flag was set by stop or the output file exists on disk (so a
user stop reaches the done signal whatever the exit code); otherwise it
emits sig_error carrying the exit code and the last 600 characters of the
first 3000 captured stderr bytes. -/
theorem C3_completion_detection :
    ∀ (s : RecState) (oe : Bool) (ec : Int) (st fp : String),
      ((RecorderThread.runFinish oe ec st fp s).emitted
          = s.emitted ++ [RecSignal.sigDone fp]
        ↔ (s.stopFlag = true ∨ oe = true))
      ∧ (s.stopFlag = false → oe = false →
          (RecorderThread.runFinish oe ec st fp s).emitted
            = s.emitted ++
              [RecSignal.sigError
                ("Recording failed (exit " ++ toString ec ++ ").\n" ++
                 strTakeRight 600 (strTake 3000 st))]) := by
  intro s oe ec st fp
  constructor
  · constructor
    · intro h
      by_contra hn
      push_neg at hn
      simp only [RecorderThread.runFinish, hn.1, hn.2, Bool.false_eq_true,
        or_self, if_false] at h
      simp at h
    · intro h
      simp only [RecorderThread.runFinish]
      rw [if_pos]
      simpa using h
  · intro h1 h2
    simp [RecorderThread.runFinish, h1, h2]

/-- C3, witness: with the flag clear and no output file, exit code 1 with
stderr "boom" yields exactly the error signal; the message carries the
exit code and the stderr tail. -/
theorem C3_completion_detection_witness :
    (RecState.mk false false false 0 []).stopFlag = false
    ∧ (RecorderThread.runFinish false 1 "boom" "/tmp/a.mp4"
        (RecState.mk false false false 0 [])).emitted
        = [] ++ [RecSignal.sigError "Recording failed (exit 1).\nboom"] :=
  ⟨rfl,
   (C3_completion_detection (RecState.mk false false false 0 [])
     false 1 "boom" "/tmp/a.mp4").2 rfl rfl⟩

/-- C4: when the child does not exit within the 5-second graceful-stop
bound, stop issues the forced termination, after which the child is no
longer running and the run-thread completion still produces exactly one
terminal transition (here the done signal, since the flag is set). -/
theorem C4_forced_termination :
    ∀ (s : RecState) (oe : Bool) (ec : Int) (st fp : String),
      s.procAlive = true →
      (RecorderThread.stop false s).terminated = true
      ∧ (RecorderThread.stop false s).procAlive = false
      ∧ (RecorderThread.runFinish oe ec st fp
            (RecorderThread.stop false s)).emitted
          = s.emitted ++ [RecSignal.sigDone fp]
      ∧ countTerminal
          (RecorderThread.runFinish oe ec st fp
            (RecorderThread.stop false s)).emitted
          = countTerminal s.emitted + 1 := by
  intro s oe ec st fp hpa
  have h1 : RecorderThread.stop false s
      = { s with stopFlag := true, procAlive := false, terminated := true,
                 quitWrites := s.quitWrites + 1 } := by
    simp [RecorderThread.stop, hpa]
  refine ⟨by rw [h1], by rw [h1], ?_, ?_⟩
  · simp [RecorderThread.runFinish, h1]
  · simp [RecorderThread.runFinish, h1, countTerminal_append,
      countTerminal, isTerminal]

/-- C4, witness: a live-child session with the child ignoring the quit
command is forcibly terminated and still finishes with one done signal. -/
theorem C4_forced_termination_witness :
    (RecState.mk false true false 0 []).procAlive = true
    ∧ (RecorderThread.stop false (RecState.mk false true false 0
        [])).terminated = true
    ∧ (RecorderThread.runFinish false 1 "" "/tmp/a.mp4"
        (RecorderThread.stop false (RecState.mk false true false 0
          []))).emitted
        = [] ++ [RecSignal.sigDone "/tmp/a.mp4"] :=
  ⟨rfl,
   (C4_forced_termination (RecState.mk false true false 0 [])
     false 1 "" "/tmp/a.mp4" rfl).1,
   (C4_forced_termination (RecState.mk false true false 0 [])
     false 1 "" "/tmp/a.mp4" rfl).2.2.1⟩

/-! ## Claims about the fallback overlay (C1, C10) -/

/-- C1, counterexample: the claim asserts that a drag pressing at
(100,100) and releasing at (300,250) resolves to
Resolved(Rectangle(100,100,200,150)).  It does not: Qt builds the live
rectangle as `QRect(origin, pos)`, whose two corner points are both
included, so the emitted rectangle is 201 x 151, not 200 x 150. -/
theorem C1_claimed_rectangle_refuted :
    dragSession ⟨100, 100⟩ ⟨180, 170⟩ ⟨300, 250⟩
      ≠ [OverlaySignal.areaSelected (QRect.ofXYWH 100 100 200 150)] := by
  decide

/-- C1 (amended): in the fallback overlay, a left-button drag pressing at
(100,100) and releasing at (105,103) resolves the session to Cancelled,
and a drag pressing at (100,100) and releasing at (300,250) resolves it
to Resolved with the rectangle (x=100, y=100, width=201, height=151) —
the Qt rectangle between the two corner points includes both corners; and
in general, any left-button release during a drag whose normalized
rectangle has width or height at most 10 pixels resolves the session to
Cancelled, never to a degenerate Resolved rectangle. -/
theorem C1_overlay_release_rules :
    dragSession ⟨100, 100⟩ ⟨180, 170⟩ ⟨105, 103⟩ = [OverlaySignal.cancelled]
    ∧ dragSession ⟨100, 100⟩ ⟨180, 170⟩ ⟨300, 250⟩
        = [OverlaySignal.areaSelected (QRect.ofXYWH 100 100 201 151)]
    ∧ ∀ (s : OverlayState) (p : QPoint),
        s.done = false → s.drag = true →
        ((QRect.ofPoints s.origin p).normalized.width ≤ 10 ∨
         (QRect.ofPoints s.origin p).normalized.height ≤ 10) →
        (AreaOverlay.mouseReleaseEvent s MouseButton.left p).2
          = [OverlaySignal.cancelled] := by
  refine ⟨by decide, by decide, ?_⟩
  intro s p hdone hdrag hsmall
  have hnot : ¬(10 < (QRect.ofPoints s.origin p).normalized.width ∧
      10 < (QRect.ofPoints s.origin p).normalized.height) := by
    rcases hsmall with h | h <;> intro hc <;>
      [exact absurd hc.1 (not_lt.mpr h); exact absurd hc.2 (not_lt.mpr h)]
  simp [AreaOverlay.mouseReleaseEvent, hdrag, hnot, AreaOverlay.finish, hdone]

/-- C1, witness: the general small-release rule applied to the concrete
session that pressed at (100,100), moved to (180,170) and releases at
(105,103). -/
theorem C1_overlay_release_rules_witness :
    (AreaOverlay.mouseMoveEvent
        (AreaOverlay.mousePressEvent overlayInit MouseButton.left ⟨100, 100⟩)
        ⟨180, 170⟩).done = false
    ∧ (AreaOverlay.mouseMoveEvent
        (AreaOverlay.mousePressEvent overlayInit MouseButton.left ⟨100, 100⟩)
        ⟨180, 170⟩).drag = true
    ∧ (AreaOverlay.mouseReleaseEvent
        (AreaOverlay.mouseMoveEvent
          (AreaOverlay.mousePressEvent overlayInit MouseButton.left ⟨100, 100⟩)
          ⟨180, 170⟩) MouseButton.left ⟨105, 103⟩).2
        = [OverlaySignal.cancelled] :=
  ⟨by decide, by decide,
   C1_overlay_release_rules.2.2 _ ⟨105, 103⟩ (by decide) (by decide)
     (Or.inl (by decide))⟩

/-- C10: pressing Return or Enter while the current selection rectangle
is non-null resolves the session to Resolved with that (normalized)
rectangle, with no minimum-size check; in particular the session that
dragged from (100,100) to (105,103) — a 6 x 4 rectangle, at most 10
pixels on both axes — is confirmed by Enter. -/
theorem C10_enter_bypasses_minimum :
    (∀ s : OverlayState, s.done = false → s.sel.isNull = false →
        (AreaOverlay.keyPressEvent s Key.keyReturn).2
            = [OverlaySignal.areaSelected s.sel.normalized]
          ∧ (AreaOverlay.keyPressEvent s Key.keyEnter).2
            = [OverlaySignal.areaSelected s.sel.normalized])
    ∧ (AreaOverlay.keyPressEvent
        (AreaOverlay.mouseMoveEvent
          (AreaOverlay.mousePressEvent overlayInit MouseButton.left ⟨100, 100⟩)
          ⟨105, 103⟩) Key.keyReturn).2
        = [OverlaySignal.areaSelected (QRect.ofXYWH 100 100 6 4)]
    ∧ (QRect.ofXYWH 100 100 6 4).width ≤ 10
    ∧ (QRect.ofXYWH 100 100 6 4).height ≤ 10 := by
  refine ⟨?_, by decide, by decide, by decide⟩
  intro s hdone hnull
  constructor <;>
    simp [AreaOverlay.keyPressEvent, AreaOverlay.finish, hdone, hnull]

/-! ## Claims about the command builder (C5, C6, C7) -/

/-- C5: whenever the effective capture rectangle, after rounding width
and height down to even, has width or height below 2 pixels, the pipeline
reports the validation error and returns before any encoder process is
spawned. -/
theorem C5_small_area_rejected :
    ∀ (env : HostEnv) (cfg : RecCfg),
      effectiveW env cfg < 2 ∨ effectiveH env cfg < 2 →
      buildCmd env cfg = Except.error "Selected area is too small."
      ∧ runSpawns env cfg = false := by
  intro env cfg h
  have hb : buildCmd env cfg = Except.error "Selected area is too small." := by
    rw [buildCmd, if_pos h]
  exact ⟨hb, by simp [runSpawns, hb]⟩

/-- C5, witness: a 1-pixel-wide region (rounded down to width 0) on a
1920 x 1080 screen is rejected and nothing is spawned. -/
theorem C5_small_area_rejected_witness :
    (effectiveW ⟨1920, 1080, ":0", "pulse", "default", false⟩
        ⟨some (QRect.ofXYWH 10 10 1 5), 30, 2, false, false, "small",
         "bottom-right", "/tmp/rec.mp4"⟩ < 2
      ∨ effectiveH ⟨1920, 1080, ":0", "pulse", "default", false⟩
        ⟨some (QRect.ofXYWH 10 10 1 5), 30, 2, false, false, "small",
         "bottom-right", "/tmp/rec.mp4"⟩ < 2)
    ∧ buildCmd ⟨1920, 1080, ":0", "pulse", "default", false⟩
        ⟨some (QRect.ofXYWH 10 10 1 5), 30, 2, false, false, "small",
         "bottom-right", "/tmp/rec.mp4"⟩
        = Except.error "Selected area is too small."
    ∧ runSpawns ⟨1920, 1080, ":0", "pulse", "default", false⟩
        ⟨some (QRect.ofXYWH 10 10 1 5), 30, 2, false, false, "small",
         "bottom-right", "/tmp/rec.mp4"⟩ = false :=
  ⟨Or.inl (by decide),
   (C5_small_area_rejected _ _ (Or.inl (by decide))).1,
   (C5_small_area_rejected _ _ (Or.inl (by decide))).2⟩

/-- C6: the capture resolution placed in the argument vector (the value
after "-s", at index 7) is WxH for the effective width and height, which
equal the region dimensions rounded down to even when a non-null region
is given and the screen dimensions rounded down to even otherwise, and
are never odd. -/
theorem C6_capture_resolution :
    ∀ (env : HostEnv) (cfg : RecCfg) (cmd : List String) (fp : String),
      buildCmd env cfg = Except.ok (cmd, fp) →
      cmd[6]? = some "-s"
      ∧ cmd[7]? = some (toString (effectiveW env cfg) ++ "x" ++
          toString (effectiveH env cfg))
      ∧ effectiveW env cfg % 2 = 0 ∧ effectiveH env cfg % 2 = 0
      ∧ (cfg.area = none →
          effectiveW env cfg = evenDown env.screenW ∧
          effectiveH env cfg = evenDown env.screenH)
      ∧ ∀ a : QRect, cfg.area = some a → a.isNull = false →
          effectiveW env cfg = evenDown a.width ∧
          effectiveH env cfg = evenDown a.height := by
  intro env cfg cmd fp h
  obtain ⟨hcmd, hfp⟩ := buildCmd_ok_shape env cfg cmd fp h
  subst hcmd
  refine ⟨rfl, rfl, ?_, ?_, ?_, ?_⟩
  · unfold effectiveW
    cases cfg.area with
    | none => exact evenDown_even _
    | some a =>
      by_cases hn : a.isNull <;> simp [hn, evenDown_even]
  · unfold effectiveH
    cases cfg.area with
    | none => exact evenDown_even _
    | some a =>
      by_cases hn : a.isNull <;> simp [hn, evenDown_even]
  · intro hnone
    simp [effectiveW, effectiveH, hnone]
  · intro a ha hnull
    simp [effectiveW, effectiveH, ha, hnull]

/-- C6, witness: the full-screen configuration on a 1920 x 1080 screen
yields input resolution "1920x1080" at position 7, with even derived
dimensions 1920 and 1080. -/
theorem C6_capture_resolution_witness :
    (headCmd ⟨1920, 1080, ":0", "pulse", "default", false⟩
        ⟨none, 30, 2, false, false, "small", "bottom-right", "/tmp/rec.mp4"⟩
      ++ audioArgs ⟨1920, 1080, ":0", "pulse", "default", false⟩
        ⟨none, 30, 2, false, false, "small", "bottom-right", "/tmp/rec.mp4"⟩
      ++ webcamArgs ⟨1920, 1080, ":0", "pulse", "default", false⟩
        ⟨none, 30, 2, false, false, "small", "bottom-right", "/tmp/rec.mp4"⟩
      ++ filterArgs ⟨1920, 1080, ":0", "pulse", "default", false⟩
        ⟨none, 30, 2, false, false, "small", "bottom-right", "/tmp/rec.mp4"⟩
      ++ codecArgs
        ⟨none, 30, 2, false, false, "small", "bottom-right", "/tmp/rec.mp4"⟩
      ++ audioCodecArgs
        ⟨none, 30, 2, false, false, "small", "bottom-right", "/tmp/rec.mp4"⟩
      ++ [finalPath
        ⟨none, 30, 2, false, false, "small", "bottom-right",
         "/tmp/rec.mp4"⟩])[7]?
        = some "1920x1080"
    ∧ effectiveW ⟨1920, 1080, ":0", "pulse", "default", false⟩
        ⟨none, 30, 2, false, false, "small", "bottom-right", "/tmp/rec.mp4"⟩
        % 2 = 0 :=
  ⟨(C6_capture_resolution ⟨1920, 1080, ":0", "pulse", "default", false⟩
      ⟨none, 30, 2, false, false, "small", "bottom-right", "/tmp/rec.mp4"⟩
      _ _ rfl).2.1,
   (C6_capture_resolution ⟨1920, 1080, ":0", "pulse", "default", false⟩
      ⟨none, 30, 2, false, false, "small", "bottom-right", "/tmp/rec.mp4"⟩
      _ _ rfl).2.2.1⟩

/-- C7: the quality tiers map through the fixed 5-entry table — tier 0
(45, ultrafast) through tier 4 (0, veryslow), tier 2 being (18, medium) —
with out-of-range indices falling back to (18, medium); the built command
always carries "-crf" and "-preset" with exactly the derived pair; and
the output extension is ".mkv" exactly for tier 4 and ".mp4" otherwise,
regardless of all other settings. -/
theorem C7_quality_tiers :
    ((QUALITY 0).getD (18, "medium") = (45, "ultrafast")
      ∧ (QUALITY 1).getD (18, "medium") = (28, "fast")
      ∧ (QUALITY 2).getD (18, "medium") = (18, "medium")
      ∧ (QUALITY 3).getD (18, "medium") = (12, "slow")
      ∧ (QUALITY 4).getD (18, "medium") = (0, "veryslow"))
    ∧ (∀ qi : Int, qi < 0 ∨ 4 < qi →
        (QUALITY qi).getD (18, "medium") = (18, "medium"))
    ∧ (∀ cfg : RecCfg, (cfg.quality = 4 ↔ extOf cfg = ".mkv")
        ∧ (cfg.quality ≠ 4 ↔ extOf cfg = ".mp4"))
    ∧ ∀ (env : HostEnv) (cfg : RecCfg) (cmd : List String) (fp : String),
        buildCmd env cfg = Except.ok (cmd, fp) →
        List.IsInfix
          ["-crf", toString (crfOf cfg), "-preset", presetOf cfg] cmd
        ∧ fp = splitextRoot cfg.output ++ extOf cfg := by
  refine ⟨by decide, ?_, ?_, ?_⟩
  · intro qi hq
    have h0 : qi ≠ 0 := by omega
    have h1 : qi ≠ 1 := by omega
    have h2 : qi ≠ 2 := by omega
    have h3 : qi ≠ 3 := by omega
    have h4 : qi ≠ 4 := by omega
    simp [QUALITY, h0, h1, h2, h3, h4]
  · intro cfg
    by_cases hq : cfg.quality = 4
    · constructor
      · simp [extOf, hq]
      · simp [extOf, hq]
    · constructor
      · simp [extOf, hq]
      · simp [extOf, hq]
  · intro env cfg cmd fp h
    obtain ⟨hcmd, hfp⟩ := buildCmd_ok_shape env cfg cmd fp h
    subst hcmd
    constructor
    · refine ⟨headCmd env cfg ++ audioArgs env cfg ++ webcamArgs env cfg ++
        filterArgs env cfg ++ ["-c:v", "libx264"],
        ["-pix_fmt", "yuv420p", "-movflags", "+faststart"] ++
          audioCodecArgs cfg ++ [finalPath cfg], ?_⟩
      simp [codecArgs, List.append_assoc]
    · rw [hfp]
      rfl

/-- C7, witness: the lossless tier 4 on a full-screen audio-less
configuration carries "-crf 0 -preset veryslow" and the ".mkv" output
path, and tier index -1 falls back to (18, medium). -/
theorem C7_quality_tiers_witness :
    List.IsInfix ["-crf", "0", "-preset", "veryslow"]
      (headCmd ⟨1920, 1080, ":0", "pulse", "default", false⟩
          ⟨none, 30, 4, false, false, "small", "bottom-right", "/tmp/rec.mp4"⟩
        ++ audioArgs ⟨1920, 1080, ":0", "pulse", "default", false⟩
          ⟨none, 30, 4, false, false, "small", "bottom-right", "/tmp/rec.mp4"⟩
        ++ webcamArgs ⟨1920, 1080, ":0", "pulse", "default", false⟩
          ⟨none, 30, 4, false, false, "small", "bottom-right", "/tmp/rec.mp4"⟩
        ++ filterArgs ⟨1920, 1080, ":0", "pulse", "default", false⟩
          ⟨none, 30, 4, false, false, "small", "bottom-right", "/tmp/rec.mp4"⟩
        ++ codecArgs
          ⟨none, 30, 4, false, false, "small", "bottom-right", "/tmp/rec.mp4"⟩
        ++ audioCodecArgs
          ⟨none, 30, 4, false, false, "small", "bottom-right", "/tmp/rec.mp4"⟩
        ++ [finalPath
          ⟨none, 30, 4, false, false, "small", "bottom-right",
           "/tmp/rec.mp4"⟩])
    ∧ finalPath
        ⟨none, 30, 4, false, false, "small", "bottom-right", "/tmp/rec.mp4"⟩
        = "/tmp/rec.mkv"
    ∧ ((-1 : Int) < 0 ∨ 4 < (-1 : Int))
    ∧ (QUALITY (-1)).getD (18, "medium") = (18, "medium") :=
  ⟨(C7_quality_tiers.2.2.2 ⟨1920, 1080, ":0", "pulse", "default", false⟩
      ⟨none, 30, 4, false, false, "small", "bottom-right", "/tmp/rec.mp4"⟩
      _ _ rfl).1,
   (C7_quality_tiers.2.2.2 ⟨1920, 1080, ":0", "pulse", "default", false⟩
      ⟨none, 30, 4, false, false, "small", "bottom-right", "/tmp/rec.mp4"⟩
      _ _ rfl).2,
   Or.inl (by decide),
   C7_quality_tiers.2.1 (-1) (Or.inl (by decide))⟩

/-! ## Claims about the native picker (C9) and the audio resolver (C8) -/

/-- C9: a non-zero slop exit code (for example exit code 1 from a user
Escape) resolves the native selection session to Cancelled — never to a
zero-sized Resolved rectangle — while a zero exit whose stdout parses as
exactly 4 integers with width > 4 and height > 4 resolves it to Resolved
with that rectangle. -/
theorem C9_native_tool_outcomes :
    (∀ (rc : Int) (stdout : String), rc ≠ 0 →
        slop_session rc stdout = some SelectionResult.cancelled)
    ∧ ∀ (stdout a b c d : String) (x y w h : Int),
        pySplit stdout = [a, b, c, d] →
        pyInt a = some x → pyInt b = some y → pyInt c = some w →
        pyInt d = some h → 4 < w → 4 < h →
        slop_session 0 stdout
          = some (SelectionResult.resolved (QRect.ofXYWH x y w h)) := by
  constructor
  · intro rc stdout hrc
    have h1 : select_area_slop rc stdout = SlopOutcome.noRect := by
      simp [select_area_slop, hrc]
    have h2 : on_native_done QRect.null = SelectionResult.cancelled := by decide
    simp [slop_session, h1, h2]
  · intro stdout a b c d x y w h hsplit ha hb hc hd hw hh
    have h1 : select_area_slop 0 stdout
        = SlopOutcome.picked (QRect.ofXYWH x y w h) := by
      simp [select_area_slop, hsplit, ha, hb, hc, hd, hw, hh]
    have h2 : on_native_done (QRect.ofXYWH x y w h)
        = SelectionResult.resolved (QRect.ofXYWH x y w h) := by
      unfold on_native_done
      rw [if_neg]
      simp only [QRect.isNull, QRect.ofXYWH, QRect.width, QRect.height,
        not_or, not_lt]
      refine ⟨?_, by omega, by omega⟩
      simp only [Bool.and_eq_true, beq_iff_eq, not_and]
      omega
    simp [slop_session, h1, h2]

/-- C9, witness: exit code 1 on empty output cancels, and exit code 0
with output "10 20 100 200" resolves to the rectangle (10, 20, 100, 200). -/
theorem C9_native_tool_outcomes_witness :
    ((1 : Int) ≠ 0)
    ∧ slop_session 1 "" = some SelectionResult.cancelled
    ∧ pySplit "10 20 100 200" = ["10", "20", "100", "200"]
    ∧ ((4 : Int) < 100 ∧ (4 : Int) < 200)
    ∧ slop_session 0 "10 20 100 200"
        = some (SelectionResult.resolved (QRect.ofXYWH 10 20 100 200)) :=
  ⟨by decide, C9_native_tool_outcomes.1 1 "" (by decide), by decide,
   ⟨by decide, by decide⟩,
   C9_native_tool_outcomes.2 "10 20 100 200" "10" "20" "100" "200"
     10 20 100 200 (by decide) (by decide) (by decide) (by decide) (by decide)
     (by decide) (by decide)⟩

/-- Skipping a prefix of monitor lines does not change the picked
source. -/
lemma pick_source_skip_mon (pre rest : List String)
    (hpre : ∀ l ∈ pre, hasMonitor l = true) :
    pick_source (pre ++ rest) = pick_source rest := by
  induction pre with
  | nil => rfl
  | cons a as ih =>
    have ha := hpre a (List.mem_cons_self a as)
    simpa [pick_source, ha] using
      ih (fun l hl => hpre l (List.mem_cons_of_mem a hl))

/-- A list of monitor lines yields no picked source. -/
lemma pick_source_all_mon (ls : List String)
    (h : ∀ l ∈ ls, hasMonitor l = true) : pick_source ls = none := by
  induction ls with
  | nil => rfl
  | cons a as ih =>
    have ha := h a (List.mem_cons_self a as)
    simpa [pick_source, ha] using
      ih (fun l hl => h l (List.mem_cons_of_mem a hl))

/-- C8: on a non-empty source list, the resolver returns the pulse driver
with the identifier (second whitespace-separated field) of the first
listed source whose line does not contain "monitor" case-insensitively;
if every listed source is a monitor, it returns the first listed source
identifier; in particular, given one source named "alsa_output.monitor"
and one named "alsa_input.usb", it returns ("pulse", "alsa_input.usb"). -/
theorem C8_audio_first_non_monitor :
    (∀ (pre : List String) (line : String) (post : List String)
        (t0 src : String) (ts : List String),
        (∀ l ∈ pre, hasMonitor l = true) →
        hasMonitor line = false →
        pySplit line = t0 :: src :: ts →
        pactl_branch (pre ++ line :: post) = ("pulse", src))
    ∧ (∀ (first : String) (rest : List String) (t0 src : String)
        (ts : List String),
        (∀ l ∈ first :: rest, hasMonitor l = true) →
        pySplit first = t0 :: src :: ts →
        pactl_branch (first :: rest) = ("pulse", src))
    ∧ pactl_branch
        ["0 alsa_output.monitor module-alsa-card.c s16le 2ch 44100Hz",
         "1 alsa_input.usb module-alsa-card.c s16le 2ch 44100Hz"]
        = ("pulse", "alsa_input.usb") := by
  refine ⟨?_, ?_, by decide⟩
  · intro pre line post t0 src ts hpre hline hsplit
    have h1 : pick_source (pre ++ line :: post) = some src := by
      rw [pick_source_skip_mon pre _ hpre]
      simp [pick_source, hline, hsplit]
    simp [pactl_branch, h1]
  · intro first rest t0 src ts hall hsplit
    have h1 : pick_source (first :: rest) = none :=
      pick_source_all_mon _ hall
    simp [pactl_branch, h1, hsplit]

/-- C8, witness: the two-line pactl output with a monitor source first
and a USB input second resolves to the USB input, via the general
first-non-monitor rule. -/
theorem C8_audio_first_non_monitor_witness :
    hasMonitor "0 alsa_output.monitor module-alsa-card.c s16le 2ch 44100Hz"
        = true
    ∧ hasMonitor "1 alsa_input.usb module-alsa-card.c s16le 2ch 44100Hz"
        = false
    ∧ pactl_branch
        ["0 alsa_output.monitor module-alsa-card.c s16le 2ch 44100Hz",
         "1 alsa_input.usb module-alsa-card.c s16le 2ch 44100Hz"]
        = ("pulse", "alsa_input.usb") :=
  ⟨by decide, by decide,
   C8_audio_first_non_monitor.1
     ["0 alsa_output.monitor module-alsa-card.c s16le 2ch 44100Hz"]
     "1 alsa_input.usb module-alsa-card.c s16le 2ch 44100Hz" [] "1"
     "alsa_input.usb" ["module-alsa-card.c", "s16le", "2ch", "44100Hz"]
     (by decide) (by decide) (by decide)⟩

/-- C10, witness: Enter confirms the concrete 6 x 4 selection built by a
drag from (100,100) to (105,103). -/
theorem C10_enter_bypasses_minimum_witness :
    (AreaOverlay.mouseMoveEvent
        (AreaOverlay.mousePressEvent overlayInit MouseButton.left ⟨100, 100⟩)
        ⟨105, 103⟩).done = false
    ∧ (AreaOverlay.mouseMoveEvent
        (AreaOverlay.mousePressEvent overlayInit MouseButton.left ⟨100, 100⟩)
        ⟨105, 103⟩).sel.isNull = false
    ∧ (AreaOverlay.keyPressEvent
        (AreaOverlay.mouseMoveEvent
          (AreaOverlay.mousePressEvent overlayInit MouseButton.left ⟨100, 100⟩)
          ⟨105, 103⟩) Key.keyEnter).2
        = [OverlaySignal.areaSelected
            (AreaOverlay.mouseMoveEvent
              (AreaOverlay.mousePressEvent overlayInit MouseButton.left
                ⟨100, 100⟩) ⟨105, 103⟩).sel.normalized] :=
  ⟨by decide, by decide,
   ((C10_enter_bypasses_minimum.1 _ (by decide) (by decide)).2)⟩

